import Mathlib

set_option autoImplicit false

/-!
Shallow embedding of the `search-agent-tool` repository's date-resolution and
filter-construction core (files `src/seacrh_by_date/__init__.py` and
`src/search_by_date/__init__.py`).  The primary variant embedded here is
`src/seacrh_by_date/__init__.py`; places where the second variant differs are
noted in comments.  Calendar arithmetic models Python's `datetime.date` on the
proleptic Gregorian calendar for in-range dates (Python raises on underflow
below year 1; the claims below always carry hypotheses keeping dates in range).
-/

/-- Calendar date, mirroring Python `datetime.date` (proleptic Gregorian). -/
structure Date where
  year : Nat
  month : Nat
  day : Nat
deriving DecidableEq, Repr

/-- Gregorian leap-year test, as in Python `calendar.isleap`. -/
def isLeap (y : Nat) : Bool :=
  y % 4 == 0 && (y % 100 != 0 || y % 400 == 0)

/-- Length of a month, as used by Python `datetime.date` arithmetic. -/
def daysInMonth (y m : Nat) : Nat :=
  if m = 2 then (if isLeap y then 29 else 28)
  else if m = 4 ∨ m = 6 ∨ m = 9 ∨ m = 11 then 30
  else 31

/-- Days in months strictly before month `m` of year `y` (month 1 gives 0). -/
def daysBeforeMonth (y : Nat) : Nat → Nat
  | 0 => 0
  | m + 1 => if m = 0 then 0 else daysBeforeMonth y m + daysInMonth y m

/-- Days in years strictly before year `y`, as in Python's ordinal formula. -/
def daysBeforeYear (y : Nat) : Nat :=
  365 * (y - 1) + (y - 1) / 4 - (y - 1) / 100 + (y - 1) / 400

/-- Proleptic Gregorian ordinal of a date, as Python `date.toordinal`:
`toDays ⟨1, 1, 1⟩ = 1`. -/
def toDays (dt : Date) : Nat :=
  daysBeforeYear dt.year + daysBeforeMonth dt.year dt.month + dt.day

/-- Weekday with Monday = 0 .. Sunday = 6, as Python `date.weekday()`. -/
def Date.weekday (dt : Date) : Nat :=
  (toDays dt + 6) % 7

/-- The date is an actual calendar date (what Python `date` enforces on
construction). -/
def Date.Valid (dt : Date) : Prop :=
  1 ≤ dt.year ∧ 1 ≤ dt.month ∧ dt.month ≤ 12 ∧ 1 ≤ dt.day ∧ dt.day ≤ daysInMonth dt.year dt.month

instance (dt : Date) : Decidable dt.Valid := by
  unfold Date.Valid
  infer_instance

/-- One day earlier.  Models Python `dt - timedelta(days=1)` for dates above
`date.min` (Python raises `OverflowError` below year 1; callers in the claims
stay in range). -/
def pred_day (dt : Date) : Date :=
  if 1 < dt.day then Date.mk dt.year dt.month (dt.day - 1)
  else if 1 < dt.month then Date.mk dt.year (dt.month - 1) (daysInMonth dt.year (dt.month - 1))
  else Date.mk (dt.year - 1) 12 31

/-- One day later.  Models Python `dt + timedelta(days=1)`. -/
def succ_day (dt : Date) : Date :=
  if dt.day < daysInMonth dt.year dt.month then Date.mk dt.year dt.month (dt.day + 1)
  else if dt.month < 12 then Date.mk dt.year (dt.month + 1) 1
  else Date.mk (dt.year + 1) 1 1

/-- Models Python `dt - timedelta(days=k)` by iterating `pred_day`. -/
def sub_days (dt : Date) : Nat → Date
  | 0 => dt
  | k + 1 => pred_day (sub_days dt k)

/-- Models Python `dt + timedelta(days=k)` by iterating `succ_day`. -/
def add_days (dt : Date) : Nat → Date
  | 0 => dt
  | k + 1 => succ_day (add_days dt k)

/-- ASCII digit character for `n < 10`. -/
def digitChar (n : Nat) : Char :=
  Char.ofNat (48 + n)

/-- Two zero-padded decimal digits, as Python `"%02d"` for `n ≤ 99`. -/
def render2 (n : Nat) : List Char :=
  [digitChar (n / 10), digitChar (n % 10)]

/-- Four zero-padded decimal digits, as Python `"%04d"` for `n ≤ 9999`; this is
also the plain decimal rendering `f"{n}"` for `1000 ≤ n ≤ 9999`. -/
def render4 (n : Nat) : List Char :=
  [digitChar (n / 1000), digitChar (n / 100 % 10), digitChar (n / 10 % 10), digitChar (n % 10)]

/-- ISO rendering `YYYY-MM-DD`, as Python `date.isoformat()` (Python years are
at most 9999, where the four-digit padding is exact). -/
def Date.isoformat (dt : Date) : String :=
  String.mk (render4 dt.year ++ '-' :: render2 dt.month ++ '-' :: render2 dt.day)

/-- ASCII decimal digit test, as the regex class `\d` on ASCII text. -/
def is_digit_char (c : Char) : Bool :=
  48 ≤ c.toNat && c.toNat ≤ 57

/-- Models `dateutil.parser.parse(s).date()` restricted to the ISO
`YYYY-MM-DD` inputs this program feeds it (every string the program parses is
produced by `date.isoformat()` or is a `f"{year}-01-01"` style literal).
`none` models the library raising on an unparseable or invalid date. -/
def parse_date_iso (s : String) : Option Date :=
  match s.data with
  | [y1, y2, y3, y4, h1, m1, m2, h2, d1, d2] =>
    if is_digit_char y1 && is_digit_char y2 && is_digit_char y3 && is_digit_char y4
        && h1 = '-' && is_digit_char m1 && is_digit_char m2
        && h2 = '-' && is_digit_char d1 && is_digit_char d2 then
      let y := (y1.toNat - 48) * 1000 + (y2.toNat - 48) * 100 + (y3.toNat - 48) * 10 + (y4.toNat - 48)
      let m := (m1.toNat - 48) * 10 + (m2.toNat - 48)
      let d := (d1.toNat - 48) * 10 + (d2.toNat - 48)
      if 1 ≤ y ∧ 1 ≤ m ∧ m ≤ 12 ∧ 1 ≤ d ∧ d ≤ daysInMonth y m then some (Date.mk y m d)
      else none
    else none
  | _ => none

/-- Python `str.lower` on one character, restricted to ASCII letters and the
accented letters occurring in the program's Spanish phrases. -/
def py_lower_char (c : Char) : Char :=
  if 65 ≤ c.toNat ∧ c.toNat ≤ 90 then Char.ofNat (c.toNat + 32)
  else if c = 'Á' then 'á' else if c = 'É' then 'é' else if c = 'Í' then 'í'
  else if c = 'Ó' then 'ó' else if c = 'Ú' then 'ú' else if c = 'Ü' then 'ü'
  else if c = 'Ñ' then 'ñ' else c

/-- Python `str.lower` over a character list (same restriction as
`py_lower_char`). -/
def py_lower (s : List Char) : List Char :=
  s.map py_lower_char

/-- Python `str.strip` whitespace set (ASCII part). -/
def is_py_space (c : Char) : Bool :=
  c = ' ' || c = '\t' || c = '\n' || c = '\r' || c = '\x0b' || c = '\x0c'

/-- Python `str.strip`: drop leading and trailing whitespace. -/
def trimList (s : List Char) : List Char :=
  ((s.dropWhile is_py_space).reverse.dropWhile is_py_space).reverse

/-- Whether `s` starts with `pat` (helper for the substring test). -/
def startsWithList : List Char → List Char → Bool
  | [], _ => true
  | _ :: _, [] => false
  | p :: ps, c :: cs => p = c && startsWithList ps cs

/-- Python's substring operator `pat in s`. -/
def containsSub (pat : List Char) : List Char → Bool
  | [] => startsWithList pat []
  | c :: cs => startsWithList pat (c :: cs) || containsSub pat cs

/-- Word character for the regex boundary `\b`: models Python `\w` on ASCII
text plus the Spanish accented letters. -/
def isWordChar (c : Char) : Bool :=
  c.isAlphanum || c = '_' || (("áéíóúüñÁÉÍÓÚÜÑ").data).contains c

/-- Whether the first character of `s` (if any) is a word character. -/
def head_is_word (s : List Char) : Bool :=
  match s with
  | [] => false
  | c :: _ => isWordChar c

/-- After a leading `2`, whether the rest of the text continues with `0`, two
digits, and a non-word character (or the end) — the remainder of the pattern
`20\d{2}\b`. -/
def year_head_ok (rest : List Char) : Bool :=
  match rest with
  | c0 :: a :: b :: rest2 => c0 = '0' && is_digit_char a && is_digit_char b && !head_is_word rest2
  | _ => false

/-- The numeric value of the two digits following `20` in a `20\d\d` token. -/
def year_head_val (rest : List Char) : Nat :=
  match rest with
  | _ :: a :: b :: _ => (a.toNat - 48) * 10 + (b.toNat - 48)
  | _ => 0

/-- Left-to-right scan implementing `re.search(r'\b(20\d{2})\b', s)`: the
accumulator records whether the previous character was a word character (for
the leading `\b`). -/
def year_scan_aux : Bool → List Char → Option Nat
  | _, [] => none
  | prev_word, c :: rest =>
    if !prev_word && c = '2' && year_head_ok rest then some (2000 + year_head_val rest)
    else year_scan_aux (isWordChar c) rest

/-- First word-bounded `20\d\d` token of `s`, as `int(match.group(1))`. -/
def year_scan (s : List Char) : Option Nat :=
  year_scan_aux false s

/-- The resolver's result dictionary: a single `date` key, or `start` plus
`end` keys (`end_` stands for the Python dict key `"end"`). -/
structure DateQuery where
  date : Option String
  start : Option String
  end_ : Option String
deriving DecidableEq, Repr

/-- Normalisation the fallback parser applies first:
`user_query.lower().strip()`. -/
def norm_query (user_query : String) : List Char :=
  trimList (py_lower user_query.data)

/-- Embedding of the fallback parser function of `src/seacrh_by_date/__init__.py`
(the second variant differs: it has no "mes pasado" branch, no year branch, and
uses `today.weekday() + 7` for last week).  `today` is the
`datetime.now().date()` value, passed explicitly. -/
def fallback_date_resolver (user_query : String) (today : Date) : DateQuery :=
  let query_lower := norm_query user_query
  if containsSub (("mes pasado").data) query_lower || containsSub (("último mes").data) query_lower then
    let last_month := pred_day (Date.mk today.year today.month 1)
    let start_of_last_month := Date.mk last_month.year last_month.month 1
    DateQuery.mk none (some start_of_last_month.isoformat) (some last_month.isoformat)
  else if containsSub (("semana pasada").data) query_lower || containsSub (("última semana").data) query_lower then
    let days_back := (today.weekday + 1) % 7 + 6
    let start_of_last_week := sub_days today days_back
    let end_of_last_week := add_days start_of_last_week 6
    DateQuery.mk none (some start_of_last_week.isoformat) (some end_of_last_week.isoformat)
  else if containsSub (("ayer").data) query_lower then
    DateQuery.mk (some (pred_day today).isoformat) none none
  else if containsSub (("hoy").data) query_lower then
    DateQuery.mk (some today.isoformat) none none
  else
    match year_scan query_lower with
    | some year =>
      DateQuery.mk none (some (String.mk (render4 year) ++ ("-01-01")))
        (some (String.mk (render4 year) ++ ("-12-31")))
    | none =>
      let last_month := pred_day (Date.mk today.year today.month 1)
      let start_of_last_month := Date.mk last_month.year last_month.month 1
      DateQuery.mk none (some start_of_last_month.isoformat) (some last_month.isoformat)

/-- Embedding of `build_filter_expression`.  `none` models the
`dateutil` parse raising (which the handler's top-level catch turns into a
500); `some ""` is the "no valid filter" result. -/
def build_filter_expression (date_data : DateQuery) : Option String :=
  match date_data.date with
  | some ds =>
    match parse_date_iso ds with
    | some dd => some (("metadata_spo_item_release_date eq ") ++ dd.isoformat ++ ("T00:00:00Z"))
    | none => none
  | none =>
    match date_data.start, date_data.end_ with
    | some ss, some es =>
      match parse_date_iso ss, parse_date_iso es with
      | some sd, some ed =>
        some (("(metadata_spo_item_release_date ge ") ++ sd.isoformat
          ++ ("T00:00:00Z and metadata_spo_item_release_date le ") ++ ed.isoformat ++ ("T23:59:59Z)"))
      | _, _ => none
    | _, _ => some ("")

/-- The opening brace character (written via its code point). -/
def lbrace : Char := Char.ofNat 123

/-- The closing brace character (written via its code point). -/
def rbrace : Char := Char.ofNat 125

/-- Python `s.startswith(c)` for a single character. -/
def starts_with_char (s : List Char) (c : Char) : Bool :=
  match s with
  | [] => false
  | a :: _ => a = c

/-- Python `s.endswith(c)` for a single character. -/
def ends_with_char (s : List Char) (c : Char) : Bool :=
  starts_with_char s.reverse c

/-- JSON whitespace skipping, as `json.loads` tolerates around tokens. -/
def skip_ws : List Char → List Char
  | [] => []
  | c :: cs => if c = ' ' || c = '\t' || c = '\n' || c = '\r' then skip_ws cs else c :: cs

/-- Body of a JSON string after the opening quote: plain characters up to the
closing quote (escape sequences unsupported in this model). -/
def parse_jstring_body : List Char → Option (List Char × List Char)
  | [] => none
  | c :: cs =>
    if c = '"' then some ([], cs)
    else if c = '\\' then none
    else (parse_jstring_body cs).map (fun p => (c :: p.1, p.2))

/-- A JSON string literal starting at the head of the input. -/
def parse_jstring : List Char → Option (List Char × List Char)
  | [] => none
  | c :: cs => if c = '"' then parse_jstring_body cs else none

/-- Comma-separated `"key": "value"` members of a JSON object (fuelled
recursion; the fuel is always at least the input length plus one). -/
def parse_members : Nat → List Char → Option (List (String × String) × List Char)
  | 0, _ => none
  | fuel + 1, s =>
    match parse_jstring (skip_ws s) with
    | none => none
    | some (k, rest) =>
      match skip_ws rest with
      | c :: rest2 =>
        if c = ':' then
          match parse_jstring (skip_ws rest2) with
          | none => none
          | some (v, rest3) =>
            match skip_ws rest3 with
            | c2 :: rest4 =>
              if c2 = ',' then
                match parse_members fuel rest4 with
                | some (ps, rest5) => some ((String.mk k, String.mk v) :: ps, rest5)
                | none => none
              else some ([(String.mk k, String.mk v)], c2 :: rest4)
            | [] => some ([(String.mk k, String.mk v)], [])
        else none
      | [] => none

/-- Models Python `json.loads` restricted to the shape the agent is expected
to emit: one object whose keys and values are plain strings, with nothing but
whitespace around it.  `none` models `json.JSONDecodeError`. -/
def json_loads_list (s : List Char) : Option (List (String × String)) :=
  match skip_ws s with
  | c :: rest =>
    if c = lbrace then
      match skip_ws rest with
      | d :: rest2 =>
        if d = rbrace then (if skip_ws rest2 = [] then some [] else none)
        else
          match parse_members (rest.length + 1) (d :: rest2) with
          | some (ps, rest3) =>
            match skip_ws rest3 with
            | e :: rest4 => if e = rbrace then (if skip_ws rest4 = [] then some ps else none) else none
            | [] => none
          | none => none
      | [] => none
    else none
  | [] => none

/-- Characters before the next brace, together with the rest (which is empty
or starts with a brace). -/
def take_until_brace : List Char → (List Char × List Char)
  | [] => ([], [])
  | c :: cs =>
    if c = lbrace || c = rbrace then ([], c :: cs)
    else
      let p := take_until_brace cs
      (c :: p.1, p.2)

/-- Fuelled scan for the leftmost match of the regex pattern of one `{`, then
non-brace characters, then one `}` — what `re.search` does for the single-level
brace pattern in `src/seacrh_by_date/__init__.py`. -/
def brace_search_fuel : Nat → List Char → Option (List Char)
  | 0, _ => none
  | _ + 1, [] => none
  | fuel + 1, c :: rest =>
    if c = lbrace then
      match take_until_brace rest with
      | (mid, d :: rest2) =>
        if d = rbrace then some (lbrace :: mid ++ [rbrace])
        else brace_search_fuel fuel (d :: rest2)
      | (_, []) => none
    else brace_search_fuel fuel rest

/-- Leftmost single-level `{...}` substring of `s`, if any. -/
def brace_search (s : List Char) : Option (List Char) :=
  brace_search_fuel s.length s

/-- JSON extraction from the agent's reply text, as in
`src/seacrh_by_date/__init__.py`: strip the text; when it starts with `{` and
ends with `}` parse the whole text (a failure raises — modelled `none` —
without trying anything else); otherwise parse the first single-level `{...}`
substring; fail when there is none. -/
def extract_json_from_response (resp : String) : Option (List (String × String)) :=
  let t := trimList resp.data
  if starts_with_char t lbrace && ends_with_char t rbrace then json_loads_list t
  else
    match brace_search t with
    | some js => json_loads_list js
    | none => none

/-- One message of the agent thread: its author role and the values of its
text contents (`text_messages[i].text.value`), in order. -/
structure AgentMessage where
  role : String
  text_messages : List String
deriving DecidableEq, Repr

/-- The scan in `call_date_parser_agent` over the ascending message list: keep
the text of the last assistant message that has text contents (the Python loop
overwrites `agent_response` on each such message and takes
`text_messages[-1]`).  `find_step` is one loop iteration. -/
def find_step (acc : Option String) (m : AgentMessage) : Option String :=
  if m.role == ("assistant") && !m.text_messages.isEmpty then m.text_messages.getLast?
  else acc

/-- The fold of `find_step` over the ascending message list, starting from no
response. -/
def find_agent_response (msgs : List AgentMessage) : Option String :=
  msgs.foldl find_step none

/-- Embedding of the message-processing tail of `call_date_parser_agent`
(variant `src/seacrh_by_date/__init__.py`), given the thread's messages after
a non-failed run.  `none` models the function raising (no assistant response,
or JSON extraction failing). -/
def call_date_parser_agent (msgs : List AgentMessage) : Option (List (String × String)) :=
  match find_agent_response msgs with
  | some resp => extract_json_from_response resp
  | none => none

/-- Outcome of one request to the HTTP handler: the response status, and the
filter string passed to the downstream search call when one was issued.  The
200 on the success path stands for the downstream call having succeeded (a
downstream failure would surface as 500; no claim depends on that). -/
structure HttpResult where
  status : Nat
  search_filter : Option String
deriving DecidableEq, Repr

/-- Step 1 of `main`: the remote agent result when the remote path succeeded,
else the fallback parser.  `agent_result = none` models any exception in
`call_date_parser_agent` (unavailable client, failed run, parse failure). -/
def resolve_date (user_query : String) (today : Date) (agent_result : Option DateQuery) : DateQuery :=
  match agent_result with
  | some d => d
  | none => fallback_date_resolver user_query today

/-- Embedding of the handler `main` from `src/seacrh_by_date/__init__.py`:
reject a missing `q` parameter with 400; resolve the date (remote result or
fallback); an exception while building the filter is caught by the top-level
handler as 500; an empty filter is rejected with 400 before any search call;
otherwise the search is issued with the filter.  (Named `main_handler` because
Lean reserves the name `main` for executable entry points.) -/
def main_handler (q : Option String) (today : Date) (agent_result : Option DateQuery) : HttpResult :=
  match q with
  | none => HttpResult.mk 400 none
  | some user_query =>
    let parsed_date_info := resolve_date user_query today agent_result
    match build_filter_expression parsed_date_info with
    | none => HttpResult.mk 500 none
    | some filter_string =>
      if filter_string = ("") then HttpResult.mk 400 none
      else HttpResult.mk 200 (some filter_string)

theorem isLeap_iff (y : Nat) : isLeap y = true ↔ (y % 4 = 0 ∧ (y % 100 ≠ 0 ∨ y % 400 = 0)) := by
  simp [isLeap]

theorem daysInMonth_pos (y m : Nat) : 1 ≤ daysInMonth y m := by
  unfold daysInMonth
  split
  · split <;> omega
  · split <;> omega

theorem daysInMonth_le (y m : Nat) : daysInMonth y m ≤ 31 := by
  unfold daysInMonth
  split
  · split <;> omega
  · split <;> omega

theorem daysBeforeMonth_succ (y m : Nat) (h : 1 ≤ m) :
    daysBeforeMonth y (m + 1) = daysBeforeMonth y m + daysInMonth y m := by
  have hm : m ≠ 0 := by omega
  simp [daysBeforeMonth, hm]

theorem daysBeforeMonth_twelve (y : Nat) :
    daysBeforeMonth y 12 + 31 = 365 + (if isLeap y then 1 else 0) := by
  by_cases hl : isLeap y <;>
    simp [daysBeforeMonth, daysInMonth, hl]

set_option maxHeartbeats 1000000 in
theorem daysBeforeYear_succ (y : Nat) (h : 1 ≤ y) :
    daysBeforeYear (y + 1) = daysBeforeYear y + (365 + (if isLeap y then 1 else 0)) := by
  by_cases hl : isLeap y
  · rw [if_pos hl]
    rw [isLeap_iff] at hl
    unfold daysBeforeYear
    omega
  · rw [if_neg hl]
    rw [isLeap_iff] at hl
    unfold daysBeforeYear
    omega

theorem daysBeforeYear_mono {a b : Nat} (h : a ≤ b) : daysBeforeYear a ≤ daysBeforeYear b := by
  unfold daysBeforeYear
  have h1 : (a - 1) / 4 ≤ (b - 1) / 4 := Nat.div_le_div_right (by omega)
  have h2 : (a - 1) / 100 ≤ (b - 1) / 100 := Nat.div_le_div_right (by omega)
  have h3 : (a - 1) / 400 ≤ (b - 1) / 400 := Nat.div_le_div_right (by omega)
  omega

theorem daysBeforeMonth_add_le (y m d : Nat) (h1 : 1 ≤ m) (h2 : m ≤ 12)
    (hd : d ≤ daysInMonth y m) :
    daysBeforeMonth y m + d ≤ 365 + (if isLeap y then 1 else 0) := by
  interval_cases m <;>
    by_cases hl : isLeap y <;>
    simp_all [daysBeforeMonth, daysInMonth] <;> omega

theorem toDays_year_lb (dt : Date) (h : dt.Valid) : daysBeforeYear dt.year < toDays dt := by
  obtain ⟨h1, h2, h3, h4, h5⟩ := h
  unfold toDays
  omega

theorem toDays_year_ub (dt : Date) (h : dt.Valid) : toDays dt ≤ daysBeforeYear (dt.year + 1) := by
  obtain ⟨h1, h2, h3, h4, h5⟩ := h
  have hb := daysBeforeMonth_add_le dt.year dt.month dt.day h2 h3 h5
  have hs := daysBeforeYear_succ dt.year h1
  unfold toDays
  omega

theorem year_mono {d1 d2 : Date} (h1 : d1.Valid) (h2 : d2.Valid)
    (h : toDays d1 ≤ toDays d2) : d1.year ≤ d2.year := by
  by_contra hc
  have hy : d2.year + 1 ≤ d1.year := by omega
  have ha := toDays_year_ub d2 h2
  have hb := toDays_year_lb d1 h1
  have hm := daysBeforeYear_mono hy
  omega

theorem daysBeforeYear_ge_one (y : Nat) (h : 1 ≤ daysBeforeYear y) : 2 ≤ y := by
  by_contra hc
  have : y ≤ 1 := by omega
  unfold daysBeforeYear at h
  omega

theorem daysBeforeMonth_one (y : Nat) : daysBeforeMonth y 1 = 0 := by
  simp [daysBeforeMonth]

theorem pred_day_toDays (dt : Date) (hv : dt.Valid) (h2 : 2 ≤ toDays dt) :
    toDays (pred_day dt) + 1 = toDays dt := by
  obtain ⟨y, m, d⟩ := dt
  obtain ⟨h1, hm1, hm2, hd1, hd2⟩ := hv
  unfold pred_day
  dsimp only at *
  split
  · unfold toDays
    dsimp only
    omega
  · split
    · rename_i hd hm
      obtain ⟨k, hk⟩ : ∃ k, m = k + 1 := ⟨m - 1, by omega⟩
      subst hk
      have hsucc := daysBeforeMonth_succ y k (by omega)
      unfold toDays
      dsimp only
      simp only [Nat.add_sub_cancel]
      omega
    · rename_i hd hm
      have hdd : d = 1 := by omega
      have hmm : m = 1 := by omega
      subst hdd hmm
      have hyy : 2 ≤ y := by
        apply daysBeforeYear_ge_one
        unfold toDays at h2
        dsimp only at h2
        rw [daysBeforeMonth_one] at h2
        omega
      obtain ⟨z, hz⟩ : ∃ z, y = z + 1 := ⟨y - 1, by omega⟩
      subst hz
      have htw := daysBeforeMonth_twelve z
      have hsy := daysBeforeYear_succ z (by omega)
      unfold toDays
      dsimp only
      simp only [Nat.add_sub_cancel]
      rw [daysBeforeMonth_one]
      omega

theorem Date.valid_mk (y m d : Nat) :
    (Date.mk y m d).Valid ↔ 1 ≤ y ∧ 1 ≤ m ∧ m ≤ 12 ∧ 1 ≤ d ∧ d ≤ daysInMonth y m :=
  Iff.rfl

theorem pred_day_valid (dt : Date) (hv : dt.Valid) (h2 : 2 ≤ toDays dt) :
    (pred_day dt).Valid := by
  obtain ⟨y, m, d⟩ := dt
  obtain ⟨h1, hm1, hm2, hd1, hd2⟩ := hv
  unfold pred_day
  dsimp only at *
  split
  · rw [Date.valid_mk]
    exact ⟨h1, hm1, hm2, by omega, by omega⟩
  · split
    · rename_i hd hm
      rw [Date.valid_mk]
      have hpos := daysInMonth_pos y (m - 1)
      exact ⟨h1, by omega, by omega, by omega, le_refl _⟩
    · rename_i hd hm
      have hdd : d = 1 := by omega
      have hmm : m = 1 := by omega
      subst hdd hmm
      have hyy : 2 ≤ y := by
        apply daysBeforeYear_ge_one
        unfold toDays at h2
        dsimp only at h2
        rw [daysBeforeMonth_one] at h2
        omega
      rw [Date.valid_mk]
      refine ⟨by omega, by omega, by omega, by omega, ?_⟩
      simp [daysInMonth]

theorem pred_day_year_le (dt : Date) : (pred_day dt).year ≤ dt.year := by
  unfold pred_day
  split
  · exact le_refl _
  · split <;> dsimp only <;> omega

theorem succ_day_toDays (dt : Date) (hv : dt.Valid) : toDays (succ_day dt) = toDays dt + 1 := by
  obtain ⟨y, m, d⟩ := dt
  obtain ⟨h1, hm1, hm2, hd1, hd2⟩ := hv
  unfold succ_day
  dsimp only at *
  split
  · unfold toDays
    dsimp only
    omega
  · split
    · rename_i hd hm
      have hdd : d = daysInMonth y m := by omega
      have hsucc := daysBeforeMonth_succ y m (by omega)
      unfold toDays
      dsimp only
      omega
    · rename_i hd hm
      have hdd : d = daysInMonth y m := by omega
      have hmm : m = 12 := by omega
      subst hmm
      have htw := daysBeforeMonth_twelve y
      have hsy := daysBeforeYear_succ y (by omega)
      unfold toDays
      dsimp only
      rw [daysBeforeMonth_one]
      have : daysInMonth y 12 = 31 := by simp [daysInMonth]
      omega

theorem succ_day_valid (dt : Date) (hv : dt.Valid) : (succ_day dt).Valid := by
  obtain ⟨y, m, d⟩ := dt
  obtain ⟨h1, hm1, hm2, hd1, hd2⟩ := hv
  unfold succ_day
  dsimp only at *
  split
  · rw [Date.valid_mk]
    exact ⟨h1, hm1, hm2, by omega, by omega⟩
  · split
    · rename_i hd hm
      rw [Date.valid_mk]
      have hpos := daysInMonth_pos y (m + 1)
      exact ⟨h1, by omega, by omega, by omega, by omega⟩
    · rename_i hd hm
      rw [Date.valid_mk]
      have hpos := daysInMonth_pos (y + 1) 1
      exact ⟨by omega, by omega, by omega, by omega, by omega⟩

theorem sub_days_toDays (dt : Date) (hv : dt.Valid) :
    ∀ k, k < toDays dt → toDays (sub_days dt k) + k = toDays dt ∧ (sub_days dt k).Valid := by
  intro k
  induction k with
  | zero => intro _; exact ⟨rfl, hv⟩
  | succ n ih =>
    intro hn
    obtain ⟨he, hvn⟩ := ih (by omega)
    have h2 : 2 ≤ toDays (sub_days dt n) := by omega
    have ht := pred_day_toDays (sub_days dt n) hvn h2
    have hvv := pred_day_valid (sub_days dt n) hvn h2
    exact ⟨by simp only [sub_days]; omega, by simp only [sub_days]; exact hvv⟩

theorem add_days_toDays (dt : Date) (hv : dt.Valid) :
    ∀ k, toDays (add_days dt k) = toDays dt + k ∧ (add_days dt k).Valid := by
  intro k
  induction k with
  | zero => exact ⟨rfl, hv⟩
  | succ n ih =>
    obtain ⟨he, hvn⟩ := ih
    have ht := succ_day_toDays (add_days dt n) hvn
    have hvv := succ_day_valid (add_days dt n) hvn
    exact ⟨by simp only [add_days]; omega, by simp only [add_days]; exact hvv⟩

theorem digitChar_is_digit : ∀ n, n < 10 → is_digit_char (digitChar n) = true := by decide

theorem digitChar_toNat : ∀ n, n < 10 → (digitChar n).toNat = 48 + n := by decide

theorem parse_isoformat (dt : Date) (hv : dt.Valid) (hy : dt.year ≤ 9999) :
    parse_date_iso dt.isoformat = some dt := by
  obtain ⟨y, m, d⟩ := dt
  obtain ⟨h1, hm1, hm2, hd1, hd2⟩ := hv
  dsimp only at *
  have q1 : y / 1000 < 10 := by omega
  have q2 : y / 100 % 10 < 10 := Nat.mod_lt _ (by omega)
  have q3 : y / 10 % 10 < 10 := Nat.mod_lt _ (by omega)
  have q4 : y % 10 < 10 := Nat.mod_lt _ (by omega)
  have q5 : m / 10 < 10 := by omega
  have q6 : m % 10 < 10 := Nat.mod_lt _ (by omega)
  have q7 : d / 10 < 10 := by
    have := daysInMonth_le y m
    omega
  have q8 : d % 10 < 10 := Nat.mod_lt _ (by omega)
  simp only [Date.isoformat, render4, render2, parse_date_iso, List.cons_append, List.nil_append,
    digitChar_is_digit _ q1, digitChar_is_digit _ q2, digitChar_is_digit _ q3,
    digitChar_is_digit _ q4, digitChar_is_digit _ q5, digitChar_is_digit _ q6,
    digitChar_is_digit _ q7, digitChar_is_digit _ q8,
    digitChar_toNat _ q1, digitChar_toNat _ q2, digitChar_toNat _ q3, digitChar_toNat _ q4,
    digitChar_toNat _ q5, digitChar_toNat _ q6, digitChar_toNat _ q7, digitChar_toNat _ q8]
  norm_num
  have hYv : y / 1000 * 1000 + y / 100 % 10 * 100 + y / 10 % 10 * 10 + y % 10 = y := by omega
  have hMv : m / 10 * 10 + m % 10 = m := by omega
  have hDv : d / 10 * 10 + d % 10 = d := by omega
  rw [hYv, hMv, hDv]
  exact ⟨⟨h1, hm1, hm2, hd1, hd2⟩, rfl, rfl, rfl⟩

theorem build_filter_date_isoformat (D : Date) (hv : D.Valid) (hy : D.year ≤ 9999) :
    build_filter_expression (DateQuery.mk (some D.isoformat) none none) =
      some (("metadata_spo_item_release_date eq ") ++ D.isoformat ++ ("T00:00:00Z")) := by
  simp [build_filter_expression, parse_isoformat D hv hy]

theorem build_filter_range_isoformat (S E : Date) (hs : S.Valid) (hys : S.year ≤ 9999)
    (he : E.Valid) (hye : E.year ≤ 9999) :
    build_filter_expression (DateQuery.mk none (some S.isoformat) (some E.isoformat)) =
      some (("(metadata_spo_item_release_date ge ") ++ S.isoformat
        ++ ("T00:00:00Z and metadata_spo_item_release_date le ") ++ E.isoformat ++ ("T23:59:59Z)")) := by
  simp [build_filter_expression, parse_isoformat S hs hys, parse_isoformat E he hye]

theorem render2_one : render2 1 = '0' :: '1' :: [] := by decide

theorem render2_twelve : render2 12 = '1' :: '2' :: [] := by decide

theorem render2_thirtyone : render2 31 = '3' :: '1' :: [] := by decide

theorem string_mk_append (a b : List Char) : String.mk a ++ String.mk b = String.mk (a ++ b) := rfl

theorem isoformat_jan1 (y : Nat) :
    (Date.mk y 1 1).isoformat = String.mk (render4 y) ++ ("-01-01") := by
  have h2 : (("-01-01") : String) = String.mk ('-' :: '0' :: '1' :: '-' :: '0' :: '1' :: []) := rfl
  rw [h2, string_mk_append]
  simp [Date.isoformat, render2_one]

theorem isoformat_dec31 (y : Nat) :
    (Date.mk y 12 31).isoformat = String.mk (render4 y) ++ ("-12-31") := by
  have h2 : (("-12-31") : String) = String.mk ('-' :: '1' :: '2' :: '-' :: '3' :: '1' :: []) := rfl
  rw [h2, string_mk_append]
  simp [Date.isoformat, render2_twelve, render2_thirtyone]

theorem year_head_val_le (rest : List Char) (h : year_head_ok rest = true) :
    year_head_val rest ≤ 99 := by
  unfold year_head_ok at h
  split at h
  · rename_i heq
    simp only [Bool.and_eq_true, decide_eq_true_eq] at h
    obtain ⟨⟨⟨hc0, hda⟩, hdb⟩, hw⟩ := h
    simp only [is_digit_char, Bool.and_eq_true, decide_eq_true_eq] at hda hdb
    simp only [year_head_val]
    omega
  · simp at h

theorem year_scan_aux_bounds (s : List Char) :
    ∀ (pw : Bool) (y : Nat), year_scan_aux pw s = some y → 2000 ≤ y ∧ y ≤ 2099 := by
  induction s with
  | nil =>
    intro pw y h
    simp [year_scan_aux] at h
  | cons c rest ih =>
    intro pw y h
    rw [year_scan_aux] at h
    split at h
    · rename_i hcond
      simp only [Bool.and_eq_true] at hcond
      have hval := year_head_val_le rest hcond.2
      simp only [Option.some.injEq] at h
      omega
    · exact ih _ _ h

theorem year_scan_bounds (s : List Char) (y : Nat) (h : year_scan s = some y) :
    2000 ≤ y ∧ y ≤ 2099 :=
  year_scan_aux_bounds s false y h

/-- Claim C4: `build_filter_expression` maps a single-date DateQuery to
exactly `metadata_spo_item_release_date eq <d>T00:00:00Z` and a range
DateQuery to exactly
`(metadata_spo_item_release_date ge <start>T00:00:00Z and metadata_spo_item_release_date le <end>T23:59:59Z)`,
re-parsing and re-serialising the embedded dates to ISO form; in particular on
the two concrete inputs from the spec. -/
theorem claim_C4_build_filter_shapes :
    (∀ (s : String) (st en : Option String) (d : Date), parse_date_iso s = some d →
      build_filter_expression (DateQuery.mk (some s) st en) =
        some (("metadata_spo_item_release_date eq ") ++ d.isoformat ++ ("T00:00:00Z")))
    ∧ (∀ (ss es : String) (ds de : Date), parse_date_iso ss = some ds → parse_date_iso es = some de →
      build_filter_expression (DateQuery.mk none (some ss) (some es)) =
        some (("(metadata_spo_item_release_date ge ") ++ ds.isoformat
          ++ ("T00:00:00Z and metadata_spo_item_release_date le ") ++ de.isoformat ++ ("T23:59:59Z)")))
    ∧ build_filter_expression (DateQuery.mk (some ("2024-04-29")) none none) =
        some ("metadata_spo_item_release_date eq 2024-04-29T00:00:00Z")
    ∧ build_filter_expression (DateQuery.mk none (some ("2024-04-01")) (some ("2024-04-30"))) =
        some ("(metadata_spo_item_release_date ge 2024-04-01T00:00:00Z and metadata_spo_item_release_date le 2024-04-30T23:59:59Z)") := by
  refine ⟨?_, ?_, ?_, ?_⟩
  · intro s st en d h
    simp [build_filter_expression, h]
  · intro ss es ds de hs he
    simp [build_filter_expression, hs, he]
  · decide
  · decide

/-- Witness for C4: the first conjunct applied at the spec's concrete single
date. -/
theorem claim_C4_witness :
    parse_date_iso ("2024-04-29") = some (Date.mk 2024 4 29) ∧
    build_filter_expression (DateQuery.mk (some ("2024-04-29")) none none) =
      some (("metadata_spo_item_release_date eq ") ++ (Date.mk 2024 4 29).isoformat ++ ("T00:00:00Z")) :=
  ⟨by decide, claim_C4_build_filter_shapes.1 ("2024-04-29") none none (Date.mk 2024 4 29) (by decide)⟩

/-- Claim C5: `build_filter_expression` of a DateQuery with neither a date nor
a start/end pair is the empty string, and whenever the built filter is empty
the handler answers 400 and issues no downstream search call. -/
theorem claim_C5_empty_filter_rejected :
    build_filter_expression (DateQuery.mk none none none) = some ("")
    ∧ (∀ (q : String) (today : Date) (agent_result : Option DateQuery),
        build_filter_expression (resolve_date q today agent_result) = some ("") →
        main_handler (some q) today agent_result = HttpResult.mk 400 none) := by
  refine ⟨rfl, ?_⟩
  intro q today agent_result h
  simp [main_handler, h]

/-- Witness for C5: an agent reply with an empty dictionary is rejected with
400 and no search is issued. -/
theorem claim_C5_witness :
    build_filter_expression (resolve_date ("x") (Date.mk 2024 5 15) (some (DateQuery.mk none none none))) = some ("")
    ∧ main_handler (some ("x")) (Date.mk 2024 5 15) (some (DateQuery.mk none none none)) = HttpResult.mk 400 none :=
  ⟨by decide, claim_C5_empty_filter_rejected.2 ("x") (Date.mk 2024 5 15) (some (DateQuery.mk none none none)) (by decide)⟩

/-- Claim C10 (implicit): a dictionary carrying `start` without `end` (or
`end` without `start`) and no `date` yields the empty filter, so such a
malformed agent reply is rejected by the handler with 400 rather than
producing an unbounded filter. -/
theorem claim_C10_partial_range :
    ∀ (s q : String) (today : Date),
      build_filter_expression (DateQuery.mk none (some s) none) = some ("")
      ∧ build_filter_expression (DateQuery.mk none none (some s)) = some ("")
      ∧ main_handler (some q) today (some (DateQuery.mk none (some s) none)) = HttpResult.mk 400 none
      ∧ main_handler (some q) today (some (DateQuery.mk none none (some s))) = HttpResult.mk 400 none := by
  intro s q today
  refine ⟨rfl, rfl, ?_, ?_⟩ <;> simp [main_handler, resolve_date, build_filter_expression]

/-- Claim C8: when the remote path fails the handler resolves through the
fallback parser, and the fallback parser is total — on every query it returns
a DateQuery carrying either a date or both range bounds. -/
theorem claim_C8_resolver_total :
    ∀ (q : String) (today : Date),
      resolve_date q today none = fallback_date_resolver q today
      ∧ ((fallback_date_resolver q today).date.isSome
          ∨ ((fallback_date_resolver q today).start.isSome ∧ (fallback_date_resolver q today).end_.isSome)) := by
  intro q today
  refine ⟨rfl, ?_⟩
  by_cases h1 : (containsSub (("mes pasado").data) (norm_query q) || containsSub (("último mes").data) (norm_query q)) = true
  · simp [fallback_date_resolver, h1]
  · by_cases h2 : (containsSub (("semana pasada").data) (norm_query q) || containsSub (("última semana").data) (norm_query q)) = true
    · simp [fallback_date_resolver, h1, h2]
    · by_cases h3 : containsSub (("ayer").data) (norm_query q) = true
      · simp [fallback_date_resolver, h1, h2, h3]
      · by_cases h4 : containsSub (("hoy").data) (norm_query q) = true
        · simp [fallback_date_resolver, h1, h2, h3, h4]
        · cases hys : year_scan (norm_query q) with
          | some yy => simp [fallback_date_resolver, h1, h2, h3, h4, hys]
          | none => simp [fallback_date_resolver, h1, h2, h3, h4, hys]

/-- Counterexample to claim C2 as stated: the query `"ayer hoy"` contains the
substring `"hoy"`, yet the fallback resolver returns yesterday (the
higher-priority `"ayer"` branch fires), not `{date: today}`, for the
reference date 2024-05-15. -/
theorem claim_C2_counterexample :
    containsSub (("hoy").data) (norm_query ("ayer hoy")) = true
    ∧ fallback_date_resolver ("ayer hoy") (Date.mk 2024 5 15) = DateQuery.mk (some ("2024-05-14")) none none
    ∧ fallback_date_resolver ("ayer hoy") (Date.mk 2024 5 15) ≠
        DateQuery.mk (some ((Date.mk 2024 5 15).isoformat)) none none := by
  refine ⟨?_, ?_, ?_⟩ <;> decide

/-- Claim C2 (amended): for every query containing `"hoy"` and containing none
of the higher-priority phrases (`"mes pasado"`, `"último mes"`,
`"semana pasada"`, `"última semana"`, `"ayer"`), the fallback resolver returns
the single-date DateQuery `{date: today}`. -/
theorem claim_C2_amended (q : String) (today : Date)
    (hmes : (containsSub (("mes pasado").data) (norm_query q) || containsSub (("último mes").data) (norm_query q)) = false)
    (hsem : (containsSub (("semana pasada").data) (norm_query q) || containsSub (("última semana").data) (norm_query q)) = false)
    (hayer : containsSub (("ayer").data) (norm_query q) = false)
    (hhoy : containsSub (("hoy").data) (norm_query q) = true) :
    fallback_date_resolver q today = DateQuery.mk (some today.isoformat) none none := by
  simp [fallback_date_resolver, hmes, hsem, hayer, hhoy]

/-- Witness for the amended C2 at the query `"hoy"` and a concrete today. -/
theorem claim_C2_witness :
    fallback_date_resolver ("hoy") (Date.mk 2024 5 15) =
      DateQuery.mk (some ((Date.mk 2024 5 15).isoformat)) none none :=
  claim_C2_amended ("hoy") (Date.mk 2024 5 15) (by decide) (by decide) (by decide) (by decide)

/-- Claim C3: for every query whose lowered text contains a word-bounded
`20\d\d` token and matches none of the higher-priority phrases, the fallback
resolver returns the range `[Year-01-01, Year-12-31]` for the first such
token, whose value lies in 2000–2099. -/
theorem claim_C3_year_range (q : String) (today : Date) (y : Nat)
    (hmes : (containsSub (("mes pasado").data) (norm_query q) || containsSub (("último mes").data) (norm_query q)) = false)
    (hsem : (containsSub (("semana pasada").data) (norm_query q) || containsSub (("última semana").data) (norm_query q)) = false)
    (hayer : containsSub (("ayer").data) (norm_query q) = false)
    (hhoy : containsSub (("hoy").data) (norm_query q) = false)
    (hyr : year_scan (norm_query q) = some y) :
    fallback_date_resolver q today =
      DateQuery.mk none (some (String.mk (render4 y) ++ ("-01-01"))) (some (String.mk (render4 y) ++ ("-12-31")))
    ∧ 2000 ≤ y ∧ y ≤ 2099 := by
  have hb := year_scan_bounds _ _ hyr
  refine ⟨?_, hb.1, hb.2⟩
  simp [fallback_date_resolver, hmes, hsem, hayer, hhoy, hyr]

/-- Witness for C3 at the query `"informes de 2024"`. -/
theorem claim_C3_witness :
    year_scan (norm_query ("informes de 2024")) = some 2024
    ∧ fallback_date_resolver ("informes de 2024") (Date.mk 2024 5 15) =
      DateQuery.mk none (some (String.mk (render4 2024) ++ ("-01-01"))) (some (String.mk (render4 2024) ++ ("-12-31"))) :=
  ⟨by decide,
    (claim_C3_year_range ("informes de 2024") (Date.mk 2024 5 15) 2024
      (by decide) (by decide) (by decide) (by decide) (by decide)).1⟩

theorem find_step_skip (m : AgentMessage)
    (h : m.role ≠ ("assistant") ∨ m.text_messages = []) (acc : Option String) :
    find_step acc m = acc := by
  unfold find_step
  rcases h with h | h
  · simp [h]
  · simp [h]

theorem foldl_find_step_skip (post : List AgentMessage) :
    (∀ m2 ∈ post, m2.role ≠ ("assistant") ∨ m2.text_messages = []) →
    ∀ acc : Option String, post.foldl find_step acc = acc := by
  induction post with
  | nil => intro _ acc; rfl
  | cons p ps ih =>
    intro h acc
    rw [List.foldl_cons, find_step_skip p (h p (List.mem_cons_self p ps))]
    exact ih (fun m2 hm2 => h m2 (List.mem_cons_of_mem p hm2)) acc

/-- Claim C7: over any message history, the remote-path resolver selects the
most recent assistant-authored message that has text contents — not an earlier
one — and that message's last text is the source for JSON extraction. -/
theorem claim_C7_most_recent (pre post : List AgentMessage) (m : AgentMessage)
    (hrole : m.role = ("assistant")) (htext : m.text_messages ≠ [])
    (hpost : ∀ m2 ∈ post, m2.role ≠ ("assistant") ∨ m2.text_messages = []) :
    find_agent_response (pre ++ m :: post) = m.text_messages.getLast?
    ∧ (∀ t, m.text_messages.getLast? = some t →
        call_date_parser_agent (pre ++ m :: post) = extract_json_from_response t) := by
  have hfind : find_agent_response (pre ++ m :: post) = m.text_messages.getLast? := by
    unfold find_agent_response
    rw [List.foldl_append, List.foldl_cons]
    rw [show find_step (pre.foldl find_step none) m = m.text_messages.getLast? by
      unfold find_step
      simp [hrole, htext]]
    exact foldl_find_step_skip post hpost _
  refine ⟨hfind, ?_⟩
  intro t ht
  unfold call_date_parser_agent
  rw [hfind, ht]

/-- Witness for C7: with two assistant messages in the history, the later
one's last text is selected. -/
theorem claim_C7_witness :
    find_agent_response
      [AgentMessage.mk ("assistant") [("early")], AgentMessage.mk ("user") [("u")],
        AgentMessage.mk ("assistant") [("middle"), ("late")], AgentMessage.mk ("user") [("v")]] =
      some ("late") :=
  (claim_C7_most_recent
    [AgentMessage.mk ("assistant") [("early")], AgentMessage.mk ("user") [("u")]]
    [AgentMessage.mk ("user") [("v")]]
    (AgentMessage.mk ("assistant") [("middle"), ("late")])
    rfl (by decide) (by decide)).1

/-- Counterexample to claim C1 as stated: for the query `"semana pasada"` with
reference date 2024-05-15 (a Wednesday), the fallback resolver returns the
range 2024-05-06 .. 2024-05-12 whose start is a Monday (weekday 0), not a
Sunday (weekday 6); moreover the range's last day 2024-05-12 is the Sunday
only three days before today, i.e. a day of the current Sunday-to-Saturday
week. -/
theorem claim_C1_counterexample :
    fallback_date_resolver ("semana pasada") (Date.mk 2024 5 15) =
      DateQuery.mk none (some ("2024-05-06")) (some ("2024-05-12"))
    ∧ (Date.mk 2024 5 6).weekday = 0
    ∧ (Date.mk 2024 5 6).weekday ≠ 6
    ∧ (Date.mk 2024 5 12).weekday = 6
    ∧ toDays (Date.mk 2024 5 15) - toDays (Date.mk 2024 5 12) = 3 := by
  refine ⟨?_, ?_, ?_, ?_, ?_⟩ <;> decide

/-- Claim C1 (amended): for queries containing `"semana pasada"` or
`"última semana"` (and no month phrase), the fallback resolver returns the
7-day range `[start, start+6]` where `start = today - ((weekday+1) % 7 + 6)`
is a Monday and `start+6` is the following Sunday — the most recent Sunday on
or before today (at most 6 days back).  So the range is the most recently
completed Monday-to-Sunday week, except that when today is a Sunday the range
ends today. -/
theorem claim_C1_amended (q : String) (today : Date)
    (hv : today.Valid) (hy : 2 ≤ today.year)
    (hmes : (containsSub (("mes pasado").data) (norm_query q) || containsSub (("último mes").data) (norm_query q)) = false)
    (hsem : (containsSub (("semana pasada").data) (norm_query q) || containsSub (("última semana").data) (norm_query q)) = true) :
    fallback_date_resolver q today =
      DateQuery.mk none (some (sub_days today ((today.weekday + 1) % 7 + 6)).isoformat)
        (some (add_days (sub_days today ((today.weekday + 1) % 7 + 6)) 6).isoformat)
    ∧ (sub_days today ((today.weekday + 1) % 7 + 6)).weekday = 0
    ∧ (add_days (sub_days today ((today.weekday + 1) % 7 + 6)) 6).weekday = 6
    ∧ toDays (add_days (sub_days today ((today.weekday + 1) % 7 + 6)) 6) + (today.weekday + 1) % 7 = toDays today := by
  have hT : 366 ≤ toDays today := by
    have h1 := toDays_year_lb today hv
    have h2 := daysBeforeYear_mono hy
    have h3 : daysBeforeYear 2 = 365 := by decide
    omega
  have hmod : (today.weekday + 1) % 7 < 7 := Nat.mod_lt _ (by omega)
  obtain ⟨hsubT, hsubV⟩ := sub_days_toDays today hv ((today.weekday + 1) % 7 + 6) (by omega)
  obtain ⟨haddT, haddV⟩ := add_days_toDays (sub_days today ((today.weekday + 1) % 7 + 6)) hsubV 6
  have hw : today.weekday = (toDays today + 6) % 7 := rfl
  refine ⟨?_, ?_, ?_, ?_⟩
  · simp [fallback_date_resolver, hmes, hsem]
  · show (toDays (sub_days today ((today.weekday + 1) % 7 + 6)) + 6) % 7 = 0
    omega
  · show (toDays (add_days (sub_days today ((today.weekday + 1) % 7 + 6)) 6) + 6) % 7 = 6
    omega
  · omega

/-- Witness for the amended C1 at the query `"la semana pasada"` and the
reference date 2024-05-15. -/
theorem claim_C1_witness :
    (sub_days (Date.mk 2024 5 15) (((Date.mk 2024 5 15).weekday + 1) % 7 + 6)).weekday = 0
    ∧ (add_days (sub_days (Date.mk 2024 5 15) (((Date.mk 2024 5 15).weekday + 1) % 7 + 6)) 6).weekday = 6 :=
  ⟨(claim_C1_amended ("la semana pasada") (Date.mk 2024 5 15)
      (by decide) (by decide) (by decide) (by decide)).2.1,
    (claim_C1_amended ("la semana pasada") (Date.mk 2024 5 15)
      (by decide) (by decide) (by decide) (by decide)).2.2.1⟩

/-- Counterexample to claim C6 as stated: the reply text
`{"date": "2024-05-09"} x }` makes the extraction fail (the trimmed text
starts with `{` and ends with `}`, so the whole text is parsed and the raised
parse error is final), even though strategy 2 — the first single-level `{...}`
substring — is `{"date": "2024-05-09"}`, which is valid JSON.  So the
operation does not fail "exactly when neither strategy yields valid JSON". -/
theorem claim_C6_counterexample :
    extract_json_from_response ("\x7b\"date\": \"2024-05-09\"\x7d x \x7d") = none
    ∧ brace_search (trimList (("\x7b\"date\": \"2024-05-09\"\x7d x \x7d").data)) =
        some (("\x7b\"date\": \"2024-05-09\"\x7d").data)
    ∧ json_loads_list (("\x7b\"date\": \"2024-05-09\"\x7d").data) = some [(("date"), ("2024-05-09"))]
    ∧ json_loads_list (trimList (("\x7b\"date\": \"2024-05-09\"\x7d x \x7d").data)) = none := by
  refine ⟨?_, ?_, ?_, ?_⟩ <;> decide

/-- Claim C6 (amended): extraction fails when no assistant message exists;
strategy 1 is selected whenever the trimmed text starts with `{` and ends
with `}` (not only when the whole text is valid JSON), and its parse result —
success or failure — is final, without falling back to strategy 2; otherwise
the first single-level `{...}` substring is parsed, and the operation fails
when there is none or its parse fails. -/
theorem claim_C6_amended :
    (∀ msgs : List AgentMessage, find_agent_response msgs = none → call_date_parser_agent msgs = none)
    ∧ (∀ (msgs : List AgentMessage) (r : String), find_agent_response msgs = some r →
        (starts_with_char (trimList r.data) lbrace && ends_with_char (trimList r.data) rbrace) = true →
        call_date_parser_agent msgs = json_loads_list (trimList r.data))
    ∧ (∀ (msgs : List AgentMessage) (r : String), find_agent_response msgs = some r →
        (starts_with_char (trimList r.data) lbrace && ends_with_char (trimList r.data) rbrace) = false →
        call_date_parser_agent msgs =
          (match brace_search (trimList r.data) with
            | some js => json_loads_list js
            | none => none)) := by
  refine ⟨?_, ?_, ?_⟩
  · intro msgs hf
    unfold call_date_parser_agent
    rw [hf]
  · intro msgs r hf hcond
    unfold call_date_parser_agent
    rw [hf]
    simp [extract_json_from_response, hcond]
  · intro msgs r hf hcond
    unfold call_date_parser_agent
    rw [hf]
    simp [extract_json_from_response, hcond]

/-- Witness for the amended C6: a history whose assistant reply is exactly
one JSON object goes through strategy 1. -/
theorem claim_C6_witness :
    call_date_parser_agent [AgentMessage.mk ("assistant") [("\x7b\"date\": \"2024-05-09\"\x7d")]] =
      json_loads_list (trimList (("\x7b\"date\": \"2024-05-09\"\x7d").data)) :=
  claim_C6_amended.2.1 [AgentMessage.mk ("assistant") [("\x7b\"date\": \"2024-05-09\"\x7d")]]
    ("\x7b\"date\": \"2024-05-09\"\x7d") (by decide) (by decide)

theorem daysBeforeYear_thousand : 2 ≤ daysBeforeYear 1000 := by decide

/-- Every fallback result is either a single valid date's isoformat or a pair
of valid dates' isoformats, with years small enough for exact four-digit
rendering (for a realistic reference date). -/
theorem fallback_shape (q : String) (today : Date)
    (hv : today.Valid) (hylo : 1000 ≤ today.year) (hyhi : today.year ≤ 9998) :
    (∃ D : Date, D.Valid ∧ D.year ≤ 9999 ∧
      fallback_date_resolver q today = DateQuery.mk (some D.isoformat) none none)
    ∨ (∃ S E : Date, S.Valid ∧ S.year ≤ 9999 ∧ E.Valid ∧ E.year ≤ 9999 ∧
      fallback_date_resolver q today = DateQuery.mk none (some S.isoformat) (some E.isoformat)) := by
  have hT : 366 ≤ toDays today := by
    have ha := toDays_year_lb today hv
    have hb := daysBeforeYear_mono (show 2 ≤ today.year by omega)
    have hc : daysBeforeYear 2 = 365 := by decide
    omega
  have hbaseV : (Date.mk today.year today.month 1).Valid := by
    obtain ⟨a, b, c, d, e⟩ := hv
    rw [Date.valid_mk]
    have := daysInMonth_pos today.year today.month
    exact ⟨a, b, c, le_refl _, this⟩
  have hbaseT : 2 ≤ toDays (Date.mk today.year today.month 1) := by
    have ha := toDays_year_lb _ hbaseV
    have hb := daysBeforeYear_mono (show 1000 ≤ (Date.mk today.year today.month 1).year from hylo)
    have hc := daysBeforeYear_thousand
    omega
  have hLMv : (pred_day (Date.mk today.year today.month 1)).Valid :=
    pred_day_valid _ hbaseV hbaseT
  have hLMy : (pred_day (Date.mk today.year today.month 1)).year ≤ 9999 := by
    have := pred_day_year_le (Date.mk today.year today.month 1)
    simp only at this
    omega
  have hSLMv : (Date.mk (pred_day (Date.mk today.year today.month 1)).year
      (pred_day (Date.mk today.year today.month 1)).month 1).Valid := by
    obtain ⟨a, b, c, d, e⟩ := hLMv
    rw [Date.valid_mk]
    have := daysInMonth_pos (pred_day (Date.mk today.year today.month 1)).year
      (pred_day (Date.mk today.year today.month 1)).month
    exact ⟨a, b, c, le_refl _, this⟩
  by_cases h1 : (containsSub (("mes pasado").data) (norm_query q) || containsSub (("último mes").data) (norm_query q)) = true
  · refine Or.inr ⟨_, _, hSLMv, hLMy, hLMv, hLMy, ?_⟩
    simp [fallback_date_resolver, h1]
  · by_cases h2 : (containsSub (("semana pasada").data) (norm_query q) || containsSub (("última semana").data) (norm_query q)) = true
    · have hmod : (today.weekday + 1) % 7 < 7 := Nat.mod_lt _ (by omega)
      obtain ⟨hsubT, hsubV⟩ := sub_days_toDays today hv ((today.weekday + 1) % 7 + 6) (by omega)
      obtain ⟨haddT, haddV⟩ := add_days_toDays (sub_days today ((today.weekday + 1) % 7 + 6)) hsubV 6
      have hSy : (sub_days today ((today.weekday + 1) % 7 + 6)).year ≤ 9999 := by
        have := year_mono hsubV hv (by omega)
        omega
      have hEy : (add_days (sub_days today ((today.weekday + 1) % 7 + 6)) 6).year ≤ 9999 := by
        have := year_mono haddV hv (by omega)
        omega
      refine Or.inr ⟨_, _, hsubV, hSy, haddV, hEy, ?_⟩
      simp [fallback_date_resolver, h1, h2]
    · by_cases h3 : containsSub (("ayer").data) (norm_query q) = true
      · have hpv : (pred_day today).Valid := pred_day_valid today hv (by omega)
        have hpy : (pred_day today).year ≤ 9999 := by
          have := pred_day_year_le today
          omega
        refine Or.inl ⟨_, hpv, hpy, ?_⟩
        simp [fallback_date_resolver, h1, h2, h3]
      · by_cases h4 : containsSub (("hoy").data) (norm_query q) = true
        · refine Or.inl ⟨today, hv, by omega, ?_⟩
          simp [fallback_date_resolver, h1, h2, h3, h4]
        · cases hys : year_scan (norm_query q) with
          | some yy =>
            have hb := year_scan_bounds _ _ hys
            have hSv : (Date.mk yy 1 1).Valid := by
              rw [Date.valid_mk]
              refine ⟨by omega, by omega, by omega, by omega, ?_⟩
              simp [daysInMonth]
            have hEv : (Date.mk yy 12 31).Valid := by
              rw [Date.valid_mk]
              refine ⟨by omega, by omega, by omega, by omega, ?_⟩
              simp [daysInMonth]
            refine Or.inr ⟨Date.mk yy 1 1, Date.mk yy 12 31, hSv, by dsimp only; omega, hEv, by dsimp only; omega, ?_⟩
            simp [fallback_date_resolver, h1, h2, h3, h4, hys, isoformat_jan1, isoformat_dec31]
          | none =>
            refine Or.inr ⟨_, _, hSLMv, hLMy, hLMv, hLMy, ?_⟩
            simp [fallback_date_resolver, h1, h2, h3, h4, hys]

/-- Claim C9: the DateQuery the fallback parser produces round-trips through
`build_filter_expression` — the ISO date substrings embedded in the filter are
exactly the date/start/end string values of the DateQuery (re-parsing plus
re-serialising them is the identity). -/
theorem claim_C9_roundtrip (q : String) (today : Date)
    (hv : today.Valid) (hylo : 1000 ≤ today.year) (hyhi : today.year ≤ 9998) :
    (∀ s, (fallback_date_resolver q today).date = some s →
      build_filter_expression (fallback_date_resolver q today) =
        some (("metadata_spo_item_release_date eq ") ++ s ++ ("T00:00:00Z")))
    ∧ (∀ s e, (fallback_date_resolver q today).start = some s →
        (fallback_date_resolver q today).end_ = some e →
        build_filter_expression (fallback_date_resolver q today) =
          some (("(metadata_spo_item_release_date ge ") ++ s
            ++ ("T00:00:00Z and metadata_spo_item_release_date le ") ++ e ++ ("T23:59:59Z)"))) := by
  rcases fallback_shape q today hv hylo hyhi with ⟨D, hDv, hDy, heq⟩ | ⟨S, E, hSv, hSy, hEv, hEy, heq⟩
  · constructor
    · intro s hs
      rw [heq] at hs ⊢
      simp only [Option.some.injEq] at hs
      rw [← hs]
      exact build_filter_date_isoformat D hDv hDy
    · intro s e hs he
      rw [heq] at hs
      simp at hs
  · constructor
    · intro s hs
      rw [heq] at hs
      simp at hs
    · intro s e hs he
      rw [heq] at hs he ⊢
      simp only [Option.some.injEq] at hs he
      rw [← hs, ← he]
      exact build_filter_range_isoformat S E hSv hSy hEv hEy

/-- Witness for C9 at the query `"hoy"` and the reference date 2024-05-15. -/
theorem claim_C9_witness :
    build_filter_expression (fallback_date_resolver ("hoy") (Date.mk 2024 5 15)) =
      some (("metadata_spo_item_release_date eq ") ++ ("2024-05-15") ++ ("T00:00:00Z")) :=
  (claim_C9_roundtrip ("hoy") (Date.mk 2024 5 15) (by decide) (by decide) (by decide)).1
    ("2024-05-15") (by decide)
